import Mathlib

/-!
Verification development for the `pcb-editor` repository.

The engine's geometry synthesis and interaction code is embedded shallowly:
JavaScript numbers are modelled as exact rationals together with an explicit
NaN marker (`JNum`), `Math.sqrt` is a parameter `s : ℚ → ℚ` of the embedded
functions (instantiated with `exactSqrtQ`, which agrees with IEEE sqrt on
perfect-square rationals — the only inputs evaluated concretely), fallible
JavaScript code (property access on `undefined` throws `TypeError`) is
modelled with `Except String`.
-/

namespace PCB

/-- The two conductive layers (`src/unnamed/part_002`, `type Layer`). -/
inductive Layer where
  | top
  | bottom
deriving DecidableEq

/-- A JavaScript number: either an exact rational value or NaN.
Infinities are not modelled: in the embedded code the only zero divisor is a
zero segment length, whose numerators are then zero as well (0/0 = NaN). -/
inductive JNum where
  | nan
  | num (q : ℚ)
deriving DecidableEq

def JNum.add : JNum → JNum → JNum
  | .num a, .num b => .num (a + b)
  | _, _ => .nan

def JNum.sub : JNum → JNum → JNum
  | .num a, .num b => .num (a - b)
  | _, _ => .nan

def JNum.mul : JNum → JNum → JNum
  | .num a, .num b => .num (a * b)
  | _, _ => .nan

/-- JS division; division by zero yields NaN (see `JNum` on why ±∞ cannot
arise in the embedded code paths). -/
def JNum.div : JNum → JNum → JNum
  | .num a, .num b => if b = 0 then .nan else .num (a / b)
  | _, _ => .nan

/-- Floor of the natural square root by linear scan (inputs are tiny). -/
def natFloorSqrt (n : Nat) : Nat :=
  (List.range (n + 1)).foldl (fun acc r => if r * r ≤ n then r else acc) 0

/-- Model of `Math.sqrt` on the rationals: exact on perfect-square
rationals (where IEEE double sqrt is also exact); concrete theorems below
only ever evaluate it there. -/
def exactSqrtQ (q : ℚ) : ℚ :=
  if q ≤ 0 then 0
  else (natFloorSqrt q.num.toNat : ℚ) / (natFloorSqrt q.den : ℚ)

/-- `src/src/engine/primitives/TraceSystem.ts:70-75` — perpendicular of a
segment direction: `[-dy/len, dx/len]` with `len = Math.sqrt(dx²+dy²)`.
A zero-length segment makes both components NaN (0/0). -/
def getNormal (s : ℚ → ℚ) (p1 p2 : ℚ × ℚ) : JNum × JNum :=
  let dx := p2.1 - p1.1
  let dy := p2.2 - p1.2
  let len := s (dx * dx + dy * dy)
  (JNum.div (.num (-dy)) (.num len), JNum.div (.num dx) (.num len))

/-- The parts of a `THREE.BufferGeometry` that `createTraceGeometry` fills:
flat xyz position triples, the triangle index list, and flat uv pairs. -/
structure BufferGeo where
  positions : List JNum
  indexList : List Nat
  uvs : List JNum
deriving DecidableEq

def emptyBufferGeo : BufferGeo :=
  { positions := [], indexList := [], uvs := [] }

deriving instance DecidableEq for Except

/-- One loop iteration of `createTraceGeometry`
(`TraceSystem.ts:81-105`): the four offset corners of the segment quad,
each pushed as an xyz triple with z = 0. -/
def segmentVerts (s : ℚ → ℚ) (halfWidth : JNum) (p1 p2 : ℚ × ℚ) : List JNum :=
  let n := getNormal s p1 p2
  let wx := n.1.mul halfWidth
  let wy := n.2.mul halfWidth
  [ (JNum.num p1.1).add wx, (JNum.num p1.2).add wy, .num 0,
    (JNum.num p1.1).sub wx, (JNum.num p1.2).sub wy, .num 0,
    (JNum.num p2.1).sub wx, (JNum.num p2.2).sub wy, .num 0,
    (JNum.num p2.1).add wx, (JNum.num p2.2).add wy, .num 0 ]

/-- The vertex-push loop of `TraceSystem.ts:81-105`, one quad per
consecutive point pair. -/
def buildVerts (s : ℚ → ℚ) (halfWidth : JNum) : List (ℚ × ℚ) → List JNum
  | p1 :: p2 :: rest => segmentVerts s halfWidth p1 p2 ++ buildVerts s halfWidth (p2 :: rest)
  | _ => []

/-- The index-push loop of `TraceSystem.ts:107-111`: per segment the two
triangles `(v,v+1,v+2)` and `(v,v+2,v+3)`, with `vertIndex += 4`. -/
def buildIndices : Nat → Nat → List Nat
  | 0, _ => []
  | n + 1, v => v :: (v + 1) :: (v + 2) :: v :: (v + 2) :: (v + 3) :: buildIndices n (v + 4)

/-- The uv loop of `TraceSystem.ts:144-149`: for each xyz triple push
`(x * 0.1, y * 0.1)`. -/
def buildUVs : List JNum → List JNum
  | x :: y :: _ :: rest => x.mul (.num (1/10)) :: y.mul (.num (1/10)) :: buildUVs rest
  | _ => []

/-- `TraceSystem.createTraceGeometry` (`TraceSystem.ts:42-153`).
Fewer than 2 points returns an empty geometry; otherwise one independent
quad per consecutive point pair (the code deliberately skips miter joins,
see its comments). The point list and width come straight from the trace
record; the width is a `JNum` because a missing `width` field flows through
arithmetic as NaN without throwing. -/
def createTraceGeometry (s : ℚ → ℚ) (points : List (ℚ × ℚ)) (width : JNum) : BufferGeo :=
  let halfWidth := width.div (.num 2)
  if points.length < 2 then emptyBufferGeo
  else
    let verts := buildVerts s halfWidth points
    { positions := verts,
      indexList := buildIndices (points.length - 1) 0,
      uvs := buildUVs verts }

/-- Number of vertices of a geometry (three coordinates per vertex). -/
def vertexCount (g : BufferGeo) : Nat := g.positions.length / 3

/-- Number of triangles of a geometry (three indices per triangle). -/
def triangleCount (g : BufferGeo) : Nat := g.indexList.length / 3

/-- The (x, y) pairs of the position attribute, dropping the constant z. -/
def vertexPairs : List JNum → List (JNum × JNum)
  | x :: y :: _ :: rest => (x, y) :: vertexPairs rest
  | _ => []

/-- Modelled from the spec (§4.3), for comparison against the source's
tessellation: the miter offset vector at an interior point. The spec's
words: average the two unit adjacent-segment directions into a tangent, take
its perpendicular as the miter direction, and scale to length
half-width ÷ |dot(miterDir, adjacentSegmentNormal)|. The unit-tangent
normalisation cancels algebraically against the offset length (valid
whenever the spec's 0.1 floor on the dot magnitude is not hit), leaving an
expression that is rational in the unit segment directions. -/
def specMiterOffset (s : ℚ → ℚ) (prev cur next : ℚ × ℚ) (halfWidth : ℚ) : ℚ × ℚ :=
  let len1 := s ((cur.1 - prev.1) * (cur.1 - prev.1) + (cur.2 - prev.2) * (cur.2 - prev.2))
  let d1 := ((cur.1 - prev.1) / len1, (cur.2 - prev.2) / len1)
  let len2 := s ((next.1 - cur.1) * (next.1 - cur.1) + (next.2 - cur.2) * (next.2 - cur.2))
  let d2 := ((next.1 - cur.1) / len2, (next.2 - cur.2) / len2)
  let u := (-(d1.2 + d2.2), d1.1 + d2.1)
  let n1 := (-d1.2, d1.1)
  let dt := u.1 * n1.1 + u.2 * n1.2
  (halfWidth * u.1 / |dt|, halfWidth * u.2 / |dt|)

theorem buildVerts_length (s : ℚ → ℚ) (hw : JNum) :
    ∀ ps : List (ℚ × ℚ), (buildVerts s hw ps).length = 12 * (ps.length - 1)
  | [] => rfl
  | [_] => rfl
  | p1 :: p2 :: rest => by
    have ih := buildVerts_length s hw (p2 :: rest)
    simp only [buildVerts, List.length_append, ih, segmentVerts, List.length_cons,
      List.length_nil]
    omega

theorem buildIndices_length : ∀ n v : Nat, (buildIndices n v).length = 6 * n
  | 0, _ => rfl
  | n + 1, v => by
    have ih := buildIndices_length n (v + 4)
    simp only [buildIndices, List.length_cons, ih]
    omega

theorem mem_buildIndices : ∀ (n v i : Nat), i ∈ buildIndices n v ↔ v ≤ i ∧ i < v + 4 * n
  | 0, v, i => by simp [buildIndices]
  | n + 1, v, i => by
    have ih := mem_buildIndices n (v + 4) i
    simp only [buildIndices, List.mem_cons, ih]
    omega

/-- Claim C1 (counterexample): for the 3-point trace
`{points:[[0,0],[10,0],[10,10]], width:2}` (already free of coincident
points, so its deduplicated point list has N = 3 points) the mesh emitted by
`createTraceGeometry` has 8 vertices, not the claimed 2·N = 6. -/
theorem c1_counterexample :
    vertexCount (createTraceGeometry exactSqrtQ [((0:ℚ), (0:ℚ)), (10, 0), (10, 10)] (.num 2)) = 8 ∧
    vertexCount (createTraceGeometry exactSqrtQ [((0:ℚ), (0:ℚ)), (10, 0), (10, 10)] (.num 2)) ≠
      2 * 3 := by
  with_unfolding_all decide

/-- Claim C1 (amended): for every trace with N ≥ 2 points (no deduplication
is performed), the mesh has exactly 4(N−1) vertices and 2(N−1) triangles —
an independent quad per segment rather than a shared-vertex strip — with
every index in range and every vertex referenced by the index list. -/
theorem c1_trace_mesh_counts (s : ℚ → ℚ) (w : JNum) (ps : List (ℚ × ℚ))
    (h : 2 ≤ ps.length) :
    vertexCount (createTraceGeometry s ps w) = 4 * (ps.length - 1) ∧
    triangleCount (createTraceGeometry s ps w) = 2 * (ps.length - 1) ∧
    (∀ i ∈ (createTraceGeometry s ps w).indexList, i < 4 * (ps.length - 1)) ∧
    (∀ j, j < 4 * (ps.length - 1) → j ∈ (createTraceGeometry s ps w).indexList) := by
  have hnot : ¬ ps.length < 2 := by omega
  simp only [createTraceGeometry, if_neg hnot, vertexCount, triangleCount]
  refine ⟨?_, ?_, ?_, ?_⟩
  · rw [buildVerts_length]; omega
  · rw [buildIndices_length]; omega
  · intro i hi
    have := (mem_buildIndices (ps.length - 1) 0 i).mp hi
    omega
  · intro j hj
    exact (mem_buildIndices (ps.length - 1) 0 j).mpr (by omega)

/-- Claim C1 (witness): the amended count theorem evaluated on the concrete
3-point trace of Scenario B. -/
theorem c1_trace_mesh_counts_witness :
    vertexCount (createTraceGeometry exactSqrtQ [((0:ℚ), (0:ℚ)), (10, 0), (10, 10)] (.num 2)) =
      4 * ([((0:ℚ), (0:ℚ)), (10, 0), (10, 10)].length - 1) :=
  (c1_trace_mesh_counts exactSqrtQ (.num 2) [((0:ℚ), (0:ℚ)), (10, 0), (10, 10)]
    (by with_unfolding_all decide)).1

/-- Claim C2 (counterexample): on the trace
`{points:[[0,0],[10,0],[10,10]], width:2}` the spec's miter offset at the
single interior point `(10,0)` is `(-1, 1)` (the 0.1 floor is inactive:
|dot| of the unit vectors is √2⁄2), so a mitered mesh would contain vertices
`(9,1)` and `(11,-1)`; the mesh actually produced by `createTraceGeometry`
has 8 vertices (two disjoint quads) and contains neither miter vertex — no
miter is applied at the interior corner. -/
theorem c2_counterexample :
    specMiterOffset exactSqrtQ (0, 0) (10, 0) (10, 10) 1 = (-1, 1) ∧
    (vertexPairs (createTraceGeometry exactSqrtQ
        [((0:ℚ), (0:ℚ)), (10, 0), (10, 10)] (.num 2)).positions).length = 8 ∧
    (JNum.num (10 + (-1)), JNum.num (0 + 1)) ∉
      vertexPairs (createTraceGeometry exactSqrtQ
        [((0:ℚ), (0:ℚ)), (10, 0), (10, 10)] (.num 2)).positions ∧
    (JNum.num (10 - (-1)), JNum.num (0 - 1)) ∉
      vertexPairs (createTraceGeometry exactSqrtQ
        [((0:ℚ), (0:ℚ)), (10, 0), (10, 10)] (.num 2)).positions := by
  with_unfolding_all decide

/-- Claim C2 (amended): no miter is computed at interior points — each
segment is offset independently by its own unit normal times half-width.
For the trace `{points:[[0,0],[10,0],[10,10]], width:2}` the mesh is two
independent quads whose (x, y) vertex pairs are exactly the per-segment
normal offsets, 8 vertices in all, and no offset coordinate is NaN. -/
theorem c2_per_segment_offsets :
    vertexPairs (createTraceGeometry exactSqrtQ
        [((0:ℚ), (0:ℚ)), (10, 0), (10, 10)] (.num 2)).positions =
      [(.num 0, .num 1), (.num 0, .num (-1)), (.num 10, .num (-1)), (.num 10, .num 1),
       (.num 9, .num 0), (.num 11, .num 0), (.num 11, .num 10), (.num 9, .num 10)] ∧
    JNum.nan ∉ (createTraceGeometry exactSqrtQ
        [((0:ℚ), (0:ℚ)), (10, 0), (10, 10)] (.num 2)).positions := by
  with_unfolding_all decide

/-- Claim C7 (counterexample): the trace `{points:[[0,0],[0,0]], width:2}`
consists of two coincident points; the claimed ε-collapse would leave fewer
than 2 points and an empty mesh. Instead `createTraceGeometry` processes the
zero-length segment: the mesh is non-empty (4 vertices) and its position
attribute contains NaN — the segment length 0 was used as a divisor. -/
theorem c7_counterexample :
    vertexCount (createTraceGeometry exactSqrtQ [((0:ℚ), (0:ℚ)), (0, 0)] (.num 2)) = 4 ∧
    createTraceGeometry exactSqrtQ [((0:ℚ), (0:ℚ)), (0, 0)] (.num 2) ≠ emptyBufferGeo ∧
    JNum.nan ∈ (createTraceGeometry exactSqrtQ [((0:ℚ), (0:ℚ)), (0, 0)] (.num 2)).positions := by
  with_unfolding_all decide

/-- Claim C7 (amended): no collapsing of near-coincident consecutive points
is performed. A trace whose raw point list has fewer than 2 points yields an
empty mesh rather than an error; but a zero-length segment between
coincident consecutive points is tessellated, divides by the zero segment
length, and contributes NaN offset vertices. -/
theorem c7_degenerate_handling :
    (∀ (s : ℚ → ℚ) (w : JNum) (ps : List (ℚ × ℚ)), ps.length < 2 →
      createTraceGeometry s ps w = emptyBufferGeo) ∧
    JNum.nan ∈ (createTraceGeometry exactSqrtQ [((0:ℚ), (0:ℚ)), (0, 0)] (.num 2)).positions := by
  constructor
  · intro s w ps h
    simp only [createTraceGeometry, if_pos h]
  · with_unfolding_all decide

/-- Claim C7 (witness): the amended theorem applied to a 1-point trace. -/
theorem c7_degenerate_handling_witness :
    createTraceGeometry exactSqrtQ [((0:ℚ), (0:ℚ))] (.num 2) = emptyBufferGeo :=
  c7_degenerate_handling.1 exactSqrtQ (.num 2) [((0:ℚ), (0:ℚ))] (by with_unfolding_all decide)

/-! ## Component records and the pad batching system -/

/-- A component record as it reaches the engine (after `JSON.parse` round
trip in `PCBRenderer.updateComponents`): its fields may be absent at
runtime even where the TypeScript declarations require them
(`src/unnamed/part_002`). A hole's `pos` array has two entries; the third
slot of the modelled triple is unused for holes. -/
structure Component where
  id : String
  ctype : String
  layer : Option Layer := none
  pos : Option (ℚ × ℚ × ℚ) := none
  size : Option (ℚ × ℚ) := none
  points : Option (List (ℚ × ℚ)) := none
  width : Option ℚ := none
  radius : Option ℚ := none
deriving DecidableEq

/-- `c.layer || 'top'` -/
def effLayer (c : Component) : Layer := c.layer.getD Layer.top

/-- The `(type, layer)` grouping key of `PadSystem.update`
(`PadSystem.ts:48`). -/
def keyOf (c : Component) : String × Layer := (c.ctype, effLayer c)

/-- `components.filter(c => c.type === 'smd_rect' || c.type === 'smd_round')`
(`PadSystem.ts:32`). -/
def padsOf (comps : List Component) : List Component :=
  comps.filter fun c => decide (c.ctype = "smd_rect" ∨ c.ctype = "smd_round")

/-- The keys for which the constructor-initialised `geometries` and
`materials` maps hold an entry (`PadSystem.ts:16-25`). -/
def hasTemplate (ty : String) : Prop := ty = "smd_rect" ∨ ty = "smd_round"

instance (ty : String) : Decidable (hasTemplate ty) := by
  unfold hasTemplate; infer_instance

/-- `pads.filter(p => p.type === type && (p.layer || 'top') === layer)`
(`PadSystem.ts:52`). -/
def groupPadsFor (pads : List Component) (k : String × Layer) : List Component :=
  pads.filter fun p => decide (keyOf p = k)

/-- JS `Set` iteration order: first occurrences, in insertion order
(`new Set(pads.map(...))`, `PadSystem.ts:48`). -/
def setDedup (seen : List (String × Layer)) : List (String × Layer) → List (String × Layer)
  | [] => []
  | k :: ks => if k ∈ seen then setDedup seen ks else k :: setDedup (k :: seen) ks

/-- One slot of an `InstancedMesh.instanceMatrix`: the dummy transform
composed in `PadSystem.ts:66-95` (the plane-aligning rotation
`-π/2` about x is fixed and not modelled). -/
structure Instance where
  translation : ℚ × ℚ × ℚ
  scale : ℚ × ℚ × ℚ
deriving DecidableEq

/-- One `THREE.InstancedMesh` produced by `PadSystem.update`: its grouping
key, the parallel component-id list stored in `userData.componentIds`, and
its instance transforms. -/
structure Batch where
  key : String × Layer
  componentIds : List String
  instances : List Instance
deriving DecidableEq

/-- The per-pad body of the instance loop (`PadSystem.ts:66-102`):
`dummy.position.set(pad.pos[0], yOffset, pad.pos[2])` throws when `pos` is
absent, the scale reads `pad.size[0]` (and `[1]` for rects) and throws when
`size` is absent. -/
def padInstance (p : Component) (yOffset : ℚ) : Except String Instance :=
  match p.pos with
  | none => .error "TypeError: cannot read pos"
  | some (x, _, z) =>
    match p.size with
    | none => .error "TypeError: cannot read size"
    | some (s0, s1) =>
      .ok { translation := (x, yOffset, z),
            scale := if p.ctype = "smd_rect" then (s0, s1, 1)
                     else if p.ctype = "smd_round" then (s0, s0, 1)
                     else (1, 1, 1) }

/-- `groupPads.forEach((pad, i) => ...)` building the instance matrices in
order; a thrown `TypeError` aborts the whole rebuild. -/
def buildInstances (ps : List Component) (yOffset : ℚ) : Except String (List Instance) :=
  match ps with
  | [] => .ok []
  | p :: rest =>
    match padInstance p yOffset with
    | .error e => .error e
    | .ok i =>
      match buildInstances rest yOffset with
      | .error e => .error e
      | .ok is => .ok (i :: is)

/-- `uniqueKeys.forEach(key => ...)` (`PadSystem.ts:50-109`): for each key,
filter the group, and under the guard
`geometry && material && groupPads.length > 0` build one instanced mesh.
`yOffset = layer === 'bottom' ? -0.01 : 0.01` (`PadSystem.ts:64`). On a
thrown `TypeError` the partially committed meshes are abandoned; the
`Except` model reports only the failure. -/
def buildBatches (pads : List Component) : List (String × Layer) → Except String (List Batch)
  | [] => .ok []
  | k :: ks =>
    let groupPads := groupPadsFor pads k
    if hasTemplate k.1 ∧ 0 < groupPads.length then
      match buildInstances groupPads (if k.2 = Layer.bottom then -(1/100) else 1/100) with
      | .error e => .error e
      | .ok is =>
        match buildBatches pads ks with
        | .error e => .error e
        | .ok bs =>
          .ok ({ key := k, componentIds := groupPads.map (fun p => p.id),
                 instances := is } :: bs)
    else buildBatches pads ks

/-- `PadSystem.update` (`PadSystem.ts:28-111`): dispose everything, filter
the pads, return early when there are none, group by deduplicated
`(type, layer)` keys and build one batch per key. -/
def PadSystem.update (comps : List Component) : Except String (List Batch) :=
  let pads := padsOf comps
  if pads.length = 0 then .ok []
  else buildBatches pads (setDedup [] (pads.map keyOf))

/-- The mutable state of a `PadSystem`: the `meshes` map contents. -/
structure PadSystemState where
  meshes : List Batch
deriving DecidableEq

/-- `PadSystem.update` as a state transformer: `disposeMeshes()` clears the
previous map unconditionally (`PadSystem.ts:30`, `113-120`) before the
rebuild, so the result is independent of the prior state. -/
def PadSystem.updateSt (st : PadSystemState) (comps : List Component) :
    Except String PadSystemState :=
  let _prior := st.meshes
  match PadSystem.update comps with
  | .ok bs => .ok { meshes := bs }
  | .error e => .error e

/-- `initBoard` (`src/unnamed/part_001:162-167`): the top layer group sits
at `thickness/2 + 0.01`, the bottom one at `-thickness/2 - 0.01`. -/
structure BoardConfig where
  width : ℚ
  height : ℚ
  thickness : ℚ
deriving DecidableEq

def layerGroupY (cfg : BoardConfig) : Layer → ℚ
  | .top => cfg.thickness / 2 + 1/100
  | .bottom => -(cfg.thickness / 2) - 1/100

/-- Effective world translation of a batched instance: its parent layer
group's position plus its local instance translation. -/
def worldTranslation (cfg : BoardConfig) (ly : Layer) (inst : Instance) : ℚ × ℚ × ℚ :=
  (inst.translation.1, layerGroupY cfg ly + inst.translation.2.1, inst.translation.2.2)

/-! ## Scenario fixtures -/

/-- Scenario A's board `{width:100, height:80, thickness:1.6}`. -/
def scenarioABoard : BoardConfig := { width := 100, height := 80, thickness := 8/5 }

/-- Scenario A's pad `{id:'p1', type:'smd_rect', pos:[10,0,5], size:[3,5], layer:'top'}`. -/
def p1pad : Component :=
  { id := "p1", ctype := "smd_rect", layer := some Layer.top,
    pos := some (10, 0, 5), size := some (3, 5) }

/-- The single instance transform Scenario A produces. -/
def p1inst : Instance := { translation := (10, 1/100, 5), scale := (3, 5, 1) }

/-- The single batch Scenario A produces. -/
def scenarioABatch : Batch :=
  { key := ("smd_rect", Layer.top), componentIds := ["p1"], instances := [p1inst] }

/-- A recognized-type pad record whose required `size` field is absent. -/
def badSizePad : Component :=
  { id := "p2", ctype := "smd_rect", layer := some Layer.top, pos := some (0, 0, 0) }

/-- Claim C3: rebuilding Scenario A yields exactly one batch, keyed
`(smd_rect, top)`, with one instance, whose effective world translation is
`(10, y, 5)` with `y = half-thickness + layer-offset + pad-stack-offset =
0.8 + 0.01 + 0.01 = 0.82` (the spec's `≈0.81` names the same sum). -/
theorem c3_scenarioA :
    PadSystem.update [p1pad] = .ok [scenarioABatch] ∧
    worldTranslation scenarioABoard Layer.top p1inst = (10, 41/50, 5) ∧
    (41/50 : ℚ) = scenarioABoard.thickness / 2 + 1/100 + 1/100 := by
  with_unfolding_all decide

/-- Claim C5 (counterexample): a full rebuild over a list holding one valid
pad and one pad record missing its required `size` field does not complete:
`pad.size[0]` throws, so `PadSystem.update` aborts with a `TypeError`
instead of skipping the malformed record. -/
theorem c5_counterexample :
    PadSystem.update [p1pad, badSizePad] = .error "TypeError: cannot read size" := by
  with_unfolding_all decide

/-- Claim C8: rebuilding twice with an unchanged component list yields
identical batch keys and identical per-batch instance counts the second
time — `disposeMeshes()` clears all prior state, so the rebuild result is
independent of it. -/
theorem c8_rebuild_idempotent (comps : List Component) (st : PadSystemState)
    (r1 r2 : PadSystemState)
    (h1 : PadSystem.updateSt st comps = .ok r1)
    (h2 : PadSystem.updateSt r1 comps = .ok r2) :
    r2.meshes.map Batch.key = r1.meshes.map Batch.key ∧
    r2.meshes.map (fun b => b.instances.length) =
      r1.meshes.map (fun b => b.instances.length) := by
  have hconst : PadSystem.updateSt st comps = PadSystem.updateSt r1 comps := rfl
  rw [← hconst, h1] at h2
  cases h2
  exact ⟨rfl, rfl⟩

/-- Claim C8 (witness): both rebuild rounds evaluated on Scenario A. -/
theorem c8_rebuild_idempotent_witness :
    (PadSystemState.mk [scenarioABatch]).meshes.map Batch.key =
      (PadSystemState.mk [scenarioABatch]).meshes.map Batch.key ∧
    (PadSystemState.mk [scenarioABatch]).meshes.map (fun b => b.instances.length) =
      (PadSystemState.mk [scenarioABatch]).meshes.map (fun b => b.instances.length) :=
  c8_rebuild_idempotent [p1pad] (PadSystemState.mk []) (PadSystemState.mk [scenarioABatch])
    (PadSystemState.mk [scenarioABatch])
    (by with_unfolding_all decide) (by with_unfolding_all decide)

theorem buildInstances_length (y : ℚ) :
    ∀ (ps : List Component) (is : List Instance),
      buildInstances ps y = .ok is → is.length = ps.length
  | [], is, h => by
    simp only [buildInstances] at h
    cases h
    rfl
  | p :: rest, is, h => by
    simp only [buildInstances] at h
    cases hp : padInstance p y with
    | error e => rw [hp] at h; cases h
    | ok i =>
      rw [hp] at h
      cases hr : buildInstances rest y with
      | error e => rw [hr] at h; cases h
      | ok is0 =>
        rw [hr] at h
        cases h
        have := buildInstances_length y rest is0 hr
        simp [this]

theorem buildBatches_ok (pads : List Component) :
    ∀ (ks : List (String × Layer)) (bs : List Batch),
      buildBatches pads ks = .ok bs →
      bs.map Batch.key =
        ks.filter (fun k => decide (hasTemplate k.1 ∧ 0 < (groupPadsFor pads k).length)) ∧
      ∀ b ∈ bs, b.instances.length = (groupPadsFor pads b.key).length
  | [], bs, h => by
    simp only [buildBatches] at h
    cases h
    exact ⟨rfl, by intro b hb; cases hb⟩
  | k :: ks, bs, h => by
    simp only [buildBatches] at h
    by_cases hg : hasTemplate k.1 ∧ 0 < (groupPadsFor pads k).length
    · rw [if_pos hg] at h
      cases hi : buildInstances (groupPadsFor pads k)
          (if k.2 = Layer.bottom then -(1/100) else 1/100) with
      | error e => rw [hi] at h; cases h
      | ok is =>
        rw [hi] at h
        cases hb : buildBatches pads ks with
        | error e => rw [hb] at h; cases h
        | ok bs0 =>
          rw [hb] at h
          cases h
          obtain ⟨ih1, ih2⟩ := buildBatches_ok pads ks bs0 hb
          constructor
          · simp only [List.map_cons, List.filter_cons, decide_eq_true_eq, if_pos hg, ih1]
          · intro b hb2
            rcases List.mem_cons.mp hb2 with hb3 | hb3
            · subst hb3
              exact buildInstances_length _ _ _ hi
            · exact ih2 b hb3
    · rw [if_neg hg] at h
      obtain ⟨ih1, ih2⟩ := buildBatches_ok pads ks bs h
      constructor
      · simp only [List.filter_cons, decide_eq_true_eq, if_neg hg, ih1]
      · exact ih2

theorem mem_setDedup (x : String × Layer) :
    ∀ (ks seen : List (String × Layer)), x ∈ setDedup seen ks ↔ x ∈ ks ∧ x ∉ seen
  | [], seen => by simp [setDedup]
  | k :: ks, seen => by
    by_cases hk : k ∈ seen
    · rw [setDedup, if_pos hk, mem_setDedup x ks seen]
      constructor
      · exact fun ⟨h1, h2⟩ => ⟨List.mem_cons_of_mem k h1, h2⟩
      · rintro ⟨h1, h2⟩
        rcases List.mem_cons.mp h1 with h3 | h3
        · exact absurd (h3 ▸ hk) h2
        · exact ⟨h3, h2⟩
    · rw [setDedup, if_neg hk]
      by_cases hx : x = k
      · subst hx
        simp [hk]
      · constructor
        · intro h1
          rcases List.mem_cons.mp h1 with h2 | h2
          · exact absurd h2 hx
          · obtain ⟨h3, h4⟩ := (mem_setDedup x ks (k :: seen)).mp h2
            exact ⟨List.mem_cons_of_mem k h3, fun hs => h4 (List.mem_cons_of_mem k hs)⟩
        · rintro ⟨h1, h2⟩
          rcases List.mem_cons.mp h1 with h3 | h3
          · exact absurd h3 hx
          · exact List.mem_cons_of_mem k ((mem_setDedup x ks (k :: seen)).mpr
              ⟨h3, fun hs => (List.mem_cons.mp hs).elim hx h2⟩)

theorem setDedup_nodup : ∀ (ks seen : List (String × Layer)), (setDedup seen ks).Nodup
  | [], _ => List.nodup_nil
  | k :: ks, seen => by
    rw [setDedup]
    by_cases hk : k ∈ seen
    · rw [if_pos hk]
      exact setDedup_nodup ks seen
    · rw [if_neg hk]
      refine List.nodup_cons.mpr ⟨?_, setDedup_nodup ks (k :: seen)⟩
      intro hmem
      exact ((mem_setDedup k ks (k :: seen)).mp hmem).2 (List.mem_cons_self k seen)

theorem countP_key_of_nodup :
    ∀ (l : List Batch), (l.map Batch.key).Nodup → ∀ k : String × Layer,
      l.countP (fun b => decide (b.key = k)) = if k ∈ l.map Batch.key then 1 else 0
  | [], _, k => by simp
  | b :: l, hnd, k => by
    obtain ⟨hb, hl⟩ := List.nodup_cons.mp (by simpa only [List.map_cons] using hnd)
    rw [List.countP_cons, countP_key_of_nodup l hl k]
    simp only [List.map_cons, List.mem_cons]
    by_cases hk : k = b.key
    · subst hk
      simp [hb]
    · have hbk : ¬ b.key = k := fun h => hk h.symm
      simp [hk, hbk]

/-- Claim C4: after every rebuild that completes, for every
`(shape, layer)` key: when at least one pad component matches the key,
exactly one batch exists for it and its instance count equals the matching
component count; when none matches, no batch exists for the key at all. -/
theorem c4_batch_counts (comps : List Component) (bs : List Batch)
    (h : PadSystem.update comps = .ok bs) (ty : String) (ly : Layer) :
    bs.countP (fun b => decide (b.key = (ty, ly))) =
      (if (groupPadsFor (padsOf comps) (ty, ly)).length = 0 then 0 else 1) ∧
    ∀ b ∈ bs, b.key = (ty, ly) →
      b.instances.length = (groupPadsFor (padsOf comps) (ty, ly)).length := by
  rw [PadSystem.update] at h
  by_cases hp : (padsOf comps).length = 0
  · rw [if_pos hp] at h
    cases h
    have hnil : padsOf comps = [] := List.length_eq_zero.mp hp
    constructor
    · simp [groupPadsFor, hnil]
    · intro b hb
      cases hb
  · rw [if_neg hp] at h
    obtain ⟨hmap, hinst⟩ :=
      buildBatches_ok (padsOf comps) (setDedup [] ((padsOf comps).map keyOf)) bs h
    have hguard : ∀ k ∈ setDedup [] ((padsOf comps).map keyOf),
        decide (hasTemplate k.1 ∧ 0 < (groupPadsFor (padsOf comps) k).length) = true := by
      intro k hk
      have hk2 : k ∈ (padsOf comps).map keyOf :=
        ((mem_setDedup k ((padsOf comps).map keyOf) []).mp hk).1
      obtain ⟨p, hpmem, hpk⟩ := List.mem_map.mp hk2
      have htempl : hasTemplate k.1 := by
        obtain ⟨_, hpred⟩ := List.mem_filter.mp hpmem
        rw [← hpk]
        exact of_decide_eq_true hpred
      have hgrp : p ∈ groupPadsFor (padsOf comps) k :=
        List.mem_filter.mpr ⟨hpmem, by simp [hpk]⟩
      exact decide_eq_true ⟨htempl, List.length_pos_of_mem hgrp⟩
    have hfilter := List.filter_eq_self.mpr hguard
    rw [hfilter] at hmap
    have hnd : (bs.map Batch.key).Nodup :=
      hmap ▸ setDedup_nodup ((padsOf comps).map keyOf) []
    constructor
    · rw [countP_key_of_nodup bs hnd (ty, ly), hmap]
      by_cases hmem : (ty, ly) ∈ setDedup [] ((padsOf comps).map keyOf)
      · rw [if_pos hmem]
        have hpos := (of_decide_eq_true (hguard _ hmem)).2
        rw [if_neg (by omega)]
      · rw [if_neg hmem]
        have h0 : (groupPadsFor (padsOf comps) (ty, ly)).length = 0 := by
          by_contra hne
          obtain ⟨p, hpm⟩ : ∃ p, p ∈ groupPadsFor (padsOf comps) (ty, ly) := by
            cases hg : groupPadsFor (padsOf comps) (ty, ly) with
            | nil => exact absurd (by rw [hg]; rfl) hne
            | cons a l => exact ⟨a, hg ▸ List.mem_cons_self a l⟩
          obtain ⟨hpmem, hpk⟩ := List.mem_filter.mp hpm
          have hmm : (ty, ly) ∈ (padsOf comps).map keyOf :=
            List.mem_map.mpr ⟨p, hpmem, of_decide_eq_true hpk⟩
          exact hmem ((mem_setDedup _ _ _).mpr ⟨hmm, List.not_mem_nil _⟩)
        rw [if_pos h0]
    · intro b hbmem hbk
      have hlen := hinst b hbmem
      rw [hbk] at hlen
      exact hlen

/-- Claim C4 (witness): the count identity evaluated on Scenario A at the
key `(smd_rect, top)`. -/
theorem c4_batch_counts_witness :
    [scenarioABatch].countP (fun b => decide (b.key = ("smd_rect", Layer.top))) =
      (if (groupPadsFor (padsOf [p1pad]) ("smd_rect", Layer.top)).length = 0 then 0 else 1) :=
  (c4_batch_counts [p1pad] [scenarioABatch] (by with_unfolding_all decide)
    "smd_rect" Layer.top).1

/-! ## Trace meshes, hole mesh and the scene graph -/

/-- A missing numeric field read into arithmetic: `undefined` becomes NaN. -/
def jnumOf : Option ℚ → JNum
  | some q => .num q
  | none => .nan

/-- One standalone trace mesh (`TraceSystem.update`, `TraceSystem.ts:16-40`):
keyed by the trace id, added to the trace's layer group. -/
structure TraceMesh where
  id : String
  layer : Layer
  geo : BufferGeo
deriving DecidableEq

/-- `traces.forEach(...)` (`TraceSystem.ts:21-39`). Reading `.length` of an
absent `points` array throws; a missing `width` flows through as NaN. -/
def tracesBuild (s : ℚ → ℚ) : List Component → Except String (List TraceMesh)
  | [] => .ok []
  | t :: rest =>
    match t.points with
    | none => .error "TypeError: cannot read points"
    | some ps =>
      match tracesBuild s rest with
      | .error e => .error e
      | .ok ms =>
        .ok ({ id := t.id, layer := effLayer t,
               geo := createTraceGeometry s ps (jnumOf t.width) } :: ms)

/-- `TraceSystem.update` (`TraceSystem.ts:16-40`): dispose, filter the
traces, build one standalone mesh per trace. -/
def TraceSystem.update (s : ℚ → ℚ) (comps : List Component) :
    Except String (List TraceMesh) :=
  tracesBuild s (comps.filter fun c => decide (c.ctype = "trace"))

/-- One slot of the hole `InstancedMesh` (`HoleSystem.update`,
`src/unnamed/part_000:31-42`): position `(x, 0, y)` (cylinder centred on the
board), scale `(r, thickness·1.1, r)`; a missing `radius` flows to NaN,
a missing `pos` throws. -/
structure HoleInstance where
  translation : ℚ × ℚ × ℚ
  scale : JNum × JNum × JNum
deriving DecidableEq

def holesBuild (thickness : ℚ) : List Component → Except String (List HoleInstance)
  | [] => .ok []
  | h :: rest =>
    match h.pos with
    | none => .error "TypeError: cannot read pos"
    | some (x, y, _) =>
      match holesBuild thickness rest with
      | .error e => .error e
      | .ok hs =>
        .ok ({ translation := (x, 0, y),
               scale := (jnumOf h.radius, .num (thickness * (11/10)), jnumOf h.radius) } :: hs)

/-- A direct child of one of the three layer groups after a rebuild. -/
inductive SceneObject where
  | padObj (b : Batch)
  | traceObj (t : TraceMesh)
  | holeObj (hs : List HoleInstance)
deriving DecidableEq

def SceneObject.isHole : SceneObject → Bool
  | .holeObj _ => true
  | _ => false

/-- The children lists of the `top`, `bottom` and `board` layer groups
(`PCBRenderer.initLayers`). The board-substrate mesh and grid helper are
owned by `initBoard` and are not rebuilt by `updateComponents`, so they are
not tracked here. -/
structure Scene where
  top : List SceneObject
  bottom : List SceneObject
  board : List SceneObject
deriving DecidableEq

def emptyScene : Scene := { top := [], bottom := [], board := [] }

/-- `this.renderer.getLayerGroup(layer).add(mesh)` for each pad batch
(`PadSystem.ts:107`), in build order. -/
def sceneAddBatches (sc : Scene) : List Batch → Scene
  | [] => sc
  | b :: bs =>
    sceneAddBatches
      (if b.key.2 = Layer.bottom then { sc with bottom := sc.bottom ++ [.padObj b] }
       else { sc with top := sc.top ++ [.padObj b] }) bs

/-- `this.renderer.getLayerGroup(layer).add(mesh)` for each trace mesh
(`TraceSystem.ts:37`), in build order. -/
def sceneAddTraces (sc : Scene) : List TraceMesh → Scene
  | [] => sc
  | t :: ts =>
    sceneAddTraces
      (if t.layer = Layer.bottom then { sc with bottom := sc.bottom ++ [.traceObj t] }
       else { sc with top := sc.top ++ [.traceObj t] }) ts

/-- `PCBRenderer.updateComponents` (`src/unnamed/part_001:191-200`): a full
rebuild running `padSystem.update`, `traceSystem.update`,
`holeSystem.update` in order against freshly disposed (empty) layer groups.
The hole mesh, when any hole exists, goes to the `board` group
(`src/unnamed/part_000:47`). -/
def PCBRenderer.updateComponents (s : ℚ → ℚ) (thickness : ℚ) (comps : List Component) :
    Except String Scene :=
  match PadSystem.update comps with
  | .error e => .error e
  | .ok bs =>
    match TraceSystem.update s comps with
    | .error e => .error e
    | .ok ts =>
      let holes := comps.filter fun c => decide (c.ctype = "hole")
      let sc := sceneAddTraces (sceneAddBatches emptyScene bs) ts
      if holes.length = 0 then .ok sc
      else
        match holesBuild thickness holes with
        | .error e => .error e
        | .ok hs => .ok { sc with board := sc.board ++ [SceneObject.holeObj hs] }

/-- `checkIntersection` (`src/unnamed/part_001:282-290`): the raycast
candidate set is exactly the direct children of the `top` and `bottom`
layer groups; every resolved hover (and hence selection) identity comes
from this list. -/
def objectsToTest (sc : Scene) : List SceneObject := sc.top ++ sc.bottom

theorem filter_skip (p : Component → Bool) (pre post : List Component) (c : Component)
    (hc : p c = false) : (pre ++ c :: post).filter p = (pre ++ post).filter p := by
  simp [List.filter_append, List.filter_cons, hc]

/-- Claim C5 (amended): a record with an unrecognized `type` is filtered
out by every subsystem — the full rebuild result with it present is
identical to the result without it, so valid records still render and no
batch or mesh is produced for it. A recognized pad record missing its
required `size` field, however, aborts the rebuild with a `TypeError`
instead of being skipped. -/
theorem c5_unknown_type_skipped (s : ℚ → ℚ) (th : ℚ) (pre post : List Component)
    (c : Component)
    (h : ¬ (c.ctype = "smd_rect" ∨ c.ctype = "smd_round" ∨
            c.ctype = "trace" ∨ c.ctype = "hole")) :
    PCBRenderer.updateComponents s th (pre ++ c :: post) =
      PCBRenderer.updateComponents s th (pre ++ post) ∧
    PadSystem.update [p1pad, badSizePad] = .error "TypeError: cannot read size" := by
  have h1 : c.ctype ≠ "smd_rect" := fun he => h (Or.inl he)
  have h2 : c.ctype ≠ "smd_round" := fun he => h (Or.inr (Or.inl he))
  have h3 : c.ctype ≠ "trace" := fun he => h (Or.inr (Or.inr (Or.inl he)))
  have h4 : c.ctype ≠ "hole" := fun he => h (Or.inr (Or.inr (Or.inr he)))
  have hpads : padsOf (pre ++ c :: post) = padsOf (pre ++ post) :=
    filter_skip _ pre post c (by simp [h1, h2])
  have hupd : PadSystem.update (pre ++ c :: post) = PadSystem.update (pre ++ post) := by
    simp only [PadSystem.update, hpads]
  have hftr : (pre ++ c :: post).filter (fun x => decide (x.ctype = "trace")) =
      (pre ++ post).filter (fun x => decide (x.ctype = "trace")) :=
    filter_skip _ pre post c (by simp [h3])
  have htr : TraceSystem.update s (pre ++ c :: post) = TraceSystem.update s (pre ++ post) := by
    simp only [TraceSystem.update, hftr]
  have hholes : ((pre ++ c :: post).filter fun x => decide (x.ctype = "hole")) =
      ((pre ++ post).filter fun x => decide (x.ctype = "hole")) :=
    filter_skip _ pre post c (by simp [h4])
  refine ⟨?_, by with_unfolding_all decide⟩
  simp only [PCBRenderer.updateComponents, hupd, htr, hholes]

/-- Claim C5 (witness): the rebuild equality evaluated with an
unrecognized-`type` record inserted after Scenario A's valid pad, plus the
missing-`size` abort. -/
theorem c5_unknown_type_skipped_witness :
    (PCBRenderer.updateComponents exactSqrtQ (8/5)
        ([p1pad] ++ { id := "u1", ctype := "text" } :: []) =
      PCBRenderer.updateComponents exactSqrtQ (8/5) ([p1pad] ++ [])) ∧
    PadSystem.update [p1pad, badSizePad] = .error "TypeError: cannot read size" :=
  c5_unknown_type_skipped exactSqrtQ (8/5) [p1pad] []
    { id := "u1", ctype := "text" } (by with_unfolding_all decide)

theorem sceneAddBatches_inv : ∀ (bs : List Batch) (sc : Scene),
    (sceneAddBatches sc bs).board = sc.board ∧
    ∀ o ∈ (sceneAddBatches sc bs).top ++ (sceneAddBatches sc bs).bottom,
      o ∈ sc.top ++ sc.bottom ∨ ∃ b, o = SceneObject.padObj b
  | [], sc => ⟨rfl, fun o ho => Or.inl ho⟩
  | b :: bs, sc => by
    rw [sceneAddBatches]
    by_cases hb : b.key.2 = Layer.bottom
    · rw [if_pos hb]
      obtain ⟨ihb, ihm⟩ := sceneAddBatches_inv bs { sc with bottom := sc.bottom ++ [.padObj b] }
      refine ⟨ihb, fun o ho => ?_⟩
      rcases ihm o ho with hm | hm
      · simp only [List.mem_append, List.mem_singleton] at hm ⊢
        rcases hm with hm | hm | hm
        · exact Or.inl (Or.inl hm)
        · exact Or.inl (Or.inr hm)
        · exact Or.inr ⟨b, hm⟩
      · exact Or.inr hm
    · rw [if_neg hb]
      obtain ⟨ihb, ihm⟩ := sceneAddBatches_inv bs { sc with top := sc.top ++ [.padObj b] }
      refine ⟨ihb, fun o ho => ?_⟩
      rcases ihm o ho with hm | hm
      · simp only [List.mem_append, List.mem_singleton] at hm ⊢
        rcases hm with (hm | hm) | hm
        · exact Or.inl (Or.inl hm)
        · exact Or.inr ⟨b, hm⟩
        · exact Or.inl (Or.inr hm)
      · exact Or.inr hm

theorem sceneAddTraces_inv : ∀ (ts : List TraceMesh) (sc : Scene),
    (sceneAddTraces sc ts).board = sc.board ∧
    ∀ o ∈ (sceneAddTraces sc ts).top ++ (sceneAddTraces sc ts).bottom,
      o ∈ sc.top ++ sc.bottom ∨ ∃ t, o = SceneObject.traceObj t
  | [], sc => ⟨rfl, fun o ho => Or.inl ho⟩
  | t :: ts, sc => by
    rw [sceneAddTraces]
    by_cases ht : t.layer = Layer.bottom
    · rw [if_pos ht]
      obtain ⟨ihb, ihm⟩ := sceneAddTraces_inv ts { sc with bottom := sc.bottom ++ [.traceObj t] }
      refine ⟨ihb, fun o ho => ?_⟩
      rcases ihm o ho with hm | hm
      · simp only [List.mem_append, List.mem_singleton] at hm ⊢
        rcases hm with hm | hm | hm
        · exact Or.inl (Or.inl hm)
        · exact Or.inl (Or.inr hm)
        · exact Or.inr ⟨t, hm⟩
      · exact Or.inr hm
    · rw [if_neg ht]
      obtain ⟨ihb, ihm⟩ := sceneAddTraces_inv ts { sc with top := sc.top ++ [.traceObj t] }
      refine ⟨ihb, fun o ho => ?_⟩
      rcases ihm o ho with hm | hm
      · simp only [List.mem_append, List.mem_singleton] at hm ⊢
        rcases hm with (hm | hm) | hm
        · exact Or.inl (Or.inl hm)
        · exact Or.inr ⟨t, hm⟩
        · exact Or.inl (Or.inr hm)
      · exact Or.inr hm

/-- Claim C9: after every rebuild that completes, every raycast candidate
(`checkIntersection` only tests direct children of the `top` and `bottom`
layer groups) is a pad batch or a trace mesh — never the hole mesh, which
`HoleSystem.update` adds to the `board` group. Hence no pointer event can
resolve hover or selection to a hole. -/
theorem c9_holes_not_pickable (s : ℚ → ℚ) (th : ℚ) (comps : List Component) (sc : Scene)
    (h : PCBRenderer.updateComponents s th comps = .ok sc) :
    (∀ o ∈ objectsToTest sc, o.isHole = false) ∧
    (∀ o ∈ sc.board, o.isHole = true) := by
  rw [PCBRenderer.updateComponents] at h
  cases hbs : PadSystem.update comps with
  | error e => rw [hbs] at h; cases h
  | ok bs =>
    rw [hbs] at h
    cases hts : TraceSystem.update s comps with
    | error e => rw [hts] at h; cases h
    | ok ts =>
      rw [hts] at h
      simp only at h
      obtain ⟨hbboard, hbmem⟩ := sceneAddBatches_inv bs emptyScene
      obtain ⟨htboard, htmem⟩ := sceneAddTraces_inv ts (sceneAddBatches emptyScene bs)
      have hbase : ∀ o ∈ (sceneAddTraces (sceneAddBatches emptyScene bs) ts).top ++
          (sceneAddTraces (sceneAddBatches emptyScene bs) ts).bottom, o.isHole = false := by
        intro o ho
        rcases htmem o ho with hm | ⟨t, rfl⟩
        · rcases hbmem o hm with hm2 | ⟨b, rfl⟩
          · cases hm2
          · rfl
        · rfl
      have hbase2 : (sceneAddTraces (sceneAddBatches emptyScene bs) ts).board = [] := by
        rw [htboard, hbboard]
        rfl
      by_cases hh : (comps.filter fun c => decide (c.ctype = "hole")).length = 0
      · rw [if_pos hh] at h
        cases h
        exact ⟨hbase, by rw [hbase2]; intro o ho; cases ho⟩
      · rw [if_neg hh] at h
        cases hhb : holesBuild th (comps.filter fun c => decide (c.ctype = "hole")) with
        | error e => rw [hhb] at h; cases h
        | ok hs =>
          rw [hhb] at h
          cases h
          refine ⟨hbase, ?_⟩
          intro o ho
          simp only [hbase2, List.nil_append, List.mem_singleton] at ho
          rw [ho]
          rfl

/-- Claim C9 (witness): a document holding Scenario A's pad and one hole,
with the single top-layer raycast candidate checked not to be a hole. -/
theorem c9_holes_not_pickable_witness :
    SceneObject.isHole (SceneObject.padObj scenarioABatch) = false :=
  (c9_holes_not_pickable exactSqrtQ (8/5)
      [p1pad, { id := "h1", ctype := "hole", pos := some (0, 10, 0), radius := some (3/2) }]
      { top := [.padObj scenarioABatch], bottom := [],
        board := [.holeObj [{ translation := (0, 0, 10),
                              scale := (.num (3/2), .num ((8/5) * (11/10)), .num (3/2)) }]] }
      (by with_unfolding_all decide)).1
    (SceneObject.padObj scenarioABatch) (by with_unfolding_all decide)

/-! ## Interaction: drag manipulation and selection notifications -/

/-- The payload handed to `onSelectionChange`
(`src/unnamed/part_001:242-247`, `367-381`): any subset of the fields may be
absent at runtime. -/
structure SelectionData where
  id : Option String := none
  pos : Option (ℚ × ℚ × ℚ) := none
  ctype : Option String := none
  size : Option (ℚ × ℚ) := none
deriving DecidableEq

/-- One call to the outward `onSelectionChange` callback. -/
inductive Notification where
  | nullData
  | selData (d : SelectionData)
deriving DecidableEq

/-- `component.pos[0] = pos.x; component.pos[2] = pos.z`
(`src/unnamed/part_001:232-233`): the y slot is kept. -/
def setPosXZ (c : Component) (x z : ℚ) : Component :=
  match c.pos with
  | none => c
  | some (_, y0, _) => { c with pos := some (x, y0, z) }

/-- The `find`-then-mutate of `onTransformChange`
(`src/unnamed/part_001:229-235`): only the first component whose id matches
is touched, and only when it has a `pos` field and is a pad kind. -/
def updateComponentPos : List Component → String → ℚ → ℚ → List Component
  | [], _, _, _ => []
  | c :: cs, cid, x, z =>
    if c.id = cid then
      (if c.pos.isSome ∧ (c.ctype = "smd_rect" ∨ c.ctype = "smd_round")
       then setPosXZ c x z else c) :: cs
    else c :: updateComponentPos cs cid x z

/-- The engine state touched by a drag: the document's component list and
the pad batches with their instance-matrix slots. -/
structure EngineState where
  components : List Component
  batches : List Batch
deriving DecidableEq

/-- `PCBRenderer.onTransformChange` (`src/unnamed/part_001:210-261`) for a
batched selection `(bi, ii)`: write the proxy's decomposed transform into
exactly instance slot `ii` of batch `bi` (`mesh.setMatrixAt`), mirror the x
and z into the matching component's `pos`, and emit a change notification.
`componentIds[instanceId]` out of range yields `undefined`, so no component
matches and only the instance slot is written. -/
def onTransformChange (st : EngineState) (bi ii : Nat) (target : Instance) :
    EngineState × Option Notification :=
  match st.batches.get? bi with
  | none => (st, none)
  | some b =>
    let batches := st.batches.set bi { b with instances := b.instances.set ii target }
    match b.componentIds.get? ii with
    | none =>
      ({ components := st.components, batches := batches },
       some (.selData { id := none, pos := some target.translation }))
    | some cid =>
      let comps := updateComponentPos st.components cid
        target.translation.1 target.translation.2.2
      let found := comps.find? fun c0 => decide (c0.id = cid)
      ({ components := comps, batches := batches },
       some (.selData { id := some cid, pos := some target.translation,
                        ctype := found.map (fun c0 => c0.ctype),
                        size := found.bind (fun c0 => c0.size) }))

theorem list_get?_lt {α : Type} : ∀ (l : List α) (i : Nat) (a : α),
    l.get? i = some a → i < l.length
  | [], _, _, h => by cases h
  | _ :: _, 0, _, _ => Nat.succ_pos _
  | _ :: l, i + 1, a, h => Nat.succ_lt_succ (list_get?_lt l i a h)

theorem list_get?_set_self {α : Type} : ∀ (l : List α) (i : Nat) (a : α),
    i < l.length → (l.set i a).get? i = some a
  | [], i, _, h => absurd h (Nat.not_lt_zero i)
  | _ :: _, 0, _, _ => rfl
  | _ :: l, i + 1, a, h => list_get?_set_self l i a (Nat.lt_of_succ_lt_succ h)

theorem list_get?_set_ne {α : Type} : ∀ (l : List α) (i j : Nat) (a : α),
    j ≠ i → (l.set i a).get? j = l.get? j
  | [], _, _, _, _ => rfl
  | _ :: _, 0, 0, _, h => absurd rfl h
  | _ :: _, 0, _ + 1, _, _ => rfl
  | _ :: _, _ + 1, 0, _, _ => rfl
  | _ :: l, i + 1, j + 1, a, h =>
    list_get?_set_ne l i j a (fun he => h (by rw [he]))

theorem setPosXZ_id (c : Component) (x z : ℚ) : (setPosXZ c x z).id = c.id := by
  rw [setPosXZ]
  cases hp : c.pos with
  | none => rfl
  | some p =>
    obtain ⟨_, _, _⟩ := p
    rfl

theorem updateComponentPos_other :
    ∀ (cs : List Component) (cid : String) (x z : ℚ) (n : Nat) (c : Component),
      cs.get? n = some c → c.id ≠ cid →
      (updateComponentPos cs cid x z).get? n = some c
  | [], _, _, _, _, _, h, _ => by cases h
  | c0 :: cs, cid, x, z, n, c, h, hne => by
    rw [updateComponentPos]
    by_cases h0 : c0.id = cid
    · rw [if_pos h0]
      cases n with
      | zero =>
        cases h
        exact absurd h0 hne
      | succ n => exact h
    · rw [if_neg h0]
      cases n with
      | zero => exact h
      | succ n => exact updateComponentPos_other cs cid x z n c h hne

theorem updateComponentPos_find :
    ∀ (cs : List Component) (cid : String) (x z : ℚ) (c : Component),
      cs.find? (fun c0 => decide (c0.id = cid)) = some c →
      c.pos.isSome → (c.ctype = "smd_rect" ∨ c.ctype = "smd_round") →
      (updateComponentPos cs cid x z).find? (fun c0 => decide (c0.id = cid)) =
        some (setPosXZ c x z)
  | [], _, _, _, _, h, _, _ => by cases h
  | c0 :: cs, cid, x, z, c, h, hpos, hty => by
    rw [updateComponentPos]
    by_cases h0 : c0.id = cid
    · rw [if_pos h0]
      rw [List.find?_cons_of_pos _ (by simp [h0])] at h
      cases h
      rw [if_pos ⟨hpos, hty⟩]
      exact List.find?_cons_of_pos _ (by simp [setPosXZ_id, h0])
    · rw [if_neg h0]
      rw [List.find?_cons_of_neg _ (by simp [h0])] at h
      rw [List.find?_cons_of_neg _ (by simp [h0])]
      exact updateComponentPos_find cs cid x z c h hpos hty

/-- Claim C6: a drag of the selected batched pad instance `(bi, ii)` writes
the new transform into exactly that one instance slot and mirrors it into
exactly that component's position; every sibling slot of the batch, every
other batch, and every other component are unchanged. -/
theorem c6_drag_isolation (st : EngineState) (bi ii : Nat) (t : Instance) (b : Batch)
    (hb : st.batches.get? bi = some b) (hii : ii < b.instances.length) :
    ((onTransformChange st bi ii t).1.batches.get? bi =
      some { b with instances := b.instances.set ii t }) ∧
    ((b.instances.set ii t).get? ii = some t) ∧
    (∀ j, j ≠ ii → (b.instances.set ii t).get? j = b.instances.get? j) ∧
    (∀ k, k ≠ bi → (onTransformChange st bi ii t).1.batches.get? k = st.batches.get? k) ∧
    (∀ n c, st.components.get? n = some c →
      (∀ cid, b.componentIds.get? ii = some cid → c.id ≠ cid) →
      (onTransformChange st bi ii t).1.components.get? n = some c) ∧
    (∀ cid c, b.componentIds.get? ii = some cid →
      st.components.find? (fun c0 => decide (c0.id = cid)) = some c →
      c.pos.isSome → (c.ctype = "smd_rect" ∨ c.ctype = "smd_round") →
      (onTransformChange st bi ii t).1.components.find? (fun c0 => decide (c0.id = cid)) =
        some (setPosXZ c t.translation.1 t.translation.2.2)) := by
  have hlen : bi < st.batches.length := list_get?_lt _ _ _ hb
  cases hcid : b.componentIds.get? ii with
  | none =>
    simp only [onTransformChange, hb, hcid]
    refine ⟨list_get?_set_self _ _ _ hlen, list_get?_set_self _ _ _ hii,
      fun j hj => list_get?_set_ne _ _ _ _ hj,
      fun k hk => list_get?_set_ne _ _ _ _ hk,
      fun n c hc _ => hc, fun cid c hcid2 => ?_⟩
    cases hcid2
  | some cid =>
    simp only [onTransformChange, hb, hcid]
    refine ⟨list_get?_set_self _ _ _ hlen, list_get?_set_self _ _ _ hii,
      fun j hj => list_get?_set_ne _ _ _ _ hj,
      fun k hk => list_get?_set_ne _ _ _ _ hk,
      fun n c hc hne => updateComponentPos_other _ _ _ _ _ _ hc (hne cid rfl),
      fun cid2 c hcid2 hfind hpos hty => ?_⟩
    cases hcid2
    exact updateComponentPos_find _ _ _ _ _ hfind hpos hty

/-- A concrete dragged transform for the witness. -/
def dragTarget : Instance := { translation := (12, 1/100, 7), scale := (3, 5, 1) }

/-- Claim C6 (witness): the drag write evaluated on Scenario A's single
batch at slot 0. -/
theorem c6_drag_isolation_witness :
    (onTransformChange { components := [p1pad], batches := [scenarioABatch] }
        0 0 dragTarget).1.batches.get? 0 =
      some { scenarioABatch with instances := scenarioABatch.instances.set 0 dragTarget } :=
  (c6_drag_isolation { components := [p1pad], batches := [scenarioABatch] } 0 0 dragTarget
    scenarioABatch (by with_unfolding_all decide) (by with_unfolding_all decide)).1

/-- A hover/selection identity: one instance of a batch, or a standalone
mesh (`{object, instanceId?}` in `PCBRenderer`). -/
inductive PickRef where
  | instanced (batchIdx instanceId : Nat)
  | standalone (meshId : String)
deriving DecidableEq

/-- The selection-related `PCBRenderer` fields observable by C10. -/
structure InteractionState where
  selected : Option PickRef := none
  hasCallback : Bool := true
deriving DecidableEq

/-- `PCBRenderer.deselect` (`src/unnamed/part_001:385-400`): clear the
selection (highlight uniforms and manipulator detach are not modelled) and
unconditionally emit `null` when a callback is registered — even when
nothing was selected. -/
def deselect (st : InteractionState) : InteractionState × List Notification :=
  ({ st with selected := none },
   if st.hasCallback then [Notification.nullData] else [])

/-- `let data = {type:'unknown'}; if (userData && userData.id)
data = {...userData}` (`src/unnamed/part_001:369-375`). -/
def selectionPayload (userData : SelectionData) : SelectionData :=
  if userData.id.isSome then userData else { ctype := some "unknown" }

/-- `PCBRenderer.selectObject` (`src/unnamed/part_001:330-383`): always
`deselect()` first, then record the new selection and emit its payload. -/
def selectObject (st : InteractionState) (ref : PickRef) (userData : SelectionData) :
    InteractionState × List Notification :=
  let r := deselect st
  ({ r.1 with selected := some ref },
   r.2 ++ (if r.1.hasCallback then [Notification.selData (selectionPayload userData)] else []))

/-- Claim C10: with a registered observer, every selection emits exactly
`null` immediately followed by the selection payload — `selectObject`
unconditionally runs `deselect`, which emits `null`, before the new
selection's data is emitted, even when nothing was previously selected. -/
theorem c10_null_before_payload (st : InteractionState) (ref : PickRef) (ud : SelectionData)
    (h : st.hasCallback = true) :
    (selectObject st ref ud).2 =
      [Notification.nullData, Notification.selData (selectionPayload ud)] ∧
    (selectObject st ref ud).1.selected = some ref := by
  simp [selectObject, deselect, h]

/-- Claim C10 (witness): a selection performed with nothing previously
selected still emits `null` first. -/
theorem c10_null_before_payload_witness :
    (selectObject { selected := none, hasCallback := true }
        (PickRef.standalone "trace_1") { id := some "trace_1", ctype := some "trace" }).2 =
      [Notification.nullData,
       Notification.selData (selectionPayload
         { id := some "trace_1", ctype := some "trace" })] ∧
    (selectObject { selected := none, hasCallback := true }
        (PickRef.standalone "trace_1")
        { id := some "trace_1", ctype := some "trace" }).1.selected =
      some (PickRef.standalone "trace_1") :=
  c10_null_before_payload { selected := none, hasCallback := true }
    (PickRef.standalone "trace_1") { id := some "trace_1", ctype := some "trace" } rfl

end PCB
